import Mathlib

/-!
Verification of the ryzerecruiting backend against its specification.

This file gives a shallow embedding of the parts of the codebase that the
claims talk about:

* `app/api/bookings.py` — booking creation, the status-transition
  orchestrator `update_booking_status`, the availability lookup and deletion;
* `app/services/auth.py` — `AuthService.create_user` and
  `AuthService.authenticate_user`;
* `app/services/ai_brief.py` — `generate_pre_call_brief`;
* `app/api/employer_profiles.py` — `_parse_json_list` and
  `get_employer_profile`.

The database session is modelled as an explicit list of rows.  Each external
collaborator (Zoom, Google Calendar, the LLM brief, the e-mail/SMS
notifications, the profile upsert's flush) is modelled by the outcome it
produces, packaged in an environment record: `Except.error e` stands for the
Python call raising an exception with message `e`, `Except.ok v` for a normal
return of `v`.  A handler that raises `HTTPException` is modelled as
returning `Except.error` carrying the status code and detail string; since
FastAPI discards the (uncommitted) SQLAlchemy session on such an exception,
the handler's result also carries the resulting table state, which on the
error paths is the unchanged input table.  The side-effect calls actually
fired during a transition are recorded in an `Effect` trace so that
"operation X was / was not invoked" is expressible.
-/

namespace RyzeBackend

/-- A FastAPI `HTTPException`: status code plus detail message. -/
structure HTTPError where
  status_code : Nat
  detail : String
deriving DecidableEq, Repr

/-! ### Booking rows (`app/models/booking.py`)

The columns below are exactly the ones read or written by the booking
endpoints.  The post-call columns (`call_outcome`, `call_notes`,
`reminded_at`, `meeting_summary`) and the DB-managed timestamps are never
touched by any operation modelled here and are omitted. -/

structure Booking where
  id : Nat
  employer_id : Nat
  employer_name : String
  employer_email : String
  company_name : Option String
  website_url : Option String
  date : String
  time_slot : String
  phone : Option String
  notes : Option String
  status : String
  meeting_url : Option String
  calendar_event_id : Option String
  employer_profile_id : Option Nat
deriving DecidableEq, Repr

/-- Python truthiness of an optional string column: `None` and `""` are
falsy, any other string is truthy. -/
def optTruthy : Option String → Bool
  | none => false
  | some s => s != ""

/-- The dict returned by `app/services/zoom.py::create_meeting`:
`{"join_url": ..., "meeting_id": ...}`. -/
structure ZoomMeeting where
  join_url : String
  meeting_id : String
deriving DecidableEq, Repr

/-- The external-collaborator calls `update_booking_status` can fire.
The outcomes of the two notification calls are swallowed by the handler
(`except Exception: logger.error(...)`) and cannot influence any state,
so only the fact that they are invoked is recorded. -/
inductive Effect where
  | zoomCreate
  | calendarCreate
  | briefGenerate
  | profileUpsert
  | notifyConfirmed
  | calendarDelete
  | notifyCancelled
deriving DecidableEq, Repr

/-- Outcomes of the external collaborators during one
`update_booking_status` request.  `generate_brief` is the outcome of
`generate_pre_call_brief`; the handler catches any exception from it and
its result only flows into the employer-profile row contents and the
confirmation e-mail body, neither of which is part of the booking record,
so the booking-level model does not consult it.  `upsert_profile` is the
outcome of the profile-upsert block: on success it yields the profile id
that `db.flush()` assigned (stored into `booking.employer_profile_id`);
an exception anywhere in the block is caught and leaves the booking's
`employer_profile_id` untouched.  `delete_calendar_event` is the boolean
the calendar service returns: the callee wraps its whole body in
`try/except Exception` and returns `False` on any failure, so it never
raises; the handler ignores the flag, so only the call itself is
observable. -/
structure Env where
  create_meeting : Except String ZoomMeeting
  create_calendar_event : Except String (Option String)
  generate_brief : Except String Unit
  upsert_profile : Except Unit Nat
  delete_calendar_event : Bool

/-- `db.query(Booking).filter(Booking.id == booking_id).first()`. -/
def findBooking (booking_id : Nat) : List Booking → Option Booking
  | [] => none
  | b :: rest => if b.id = booking_id then some b else findBooking booking_id rest

/-- Committing the mutated ORM object back into the table: the row with the
booking's id now holds the updated record. -/
def commitBooking (booking_id : Nat) (b : Booking) (db : List Booking) : List Booking :=
  db.map fun x => if x.id = booking_id then b else x

/-- The three legal values of the `status` column. -/
def validStatuses : List String := ["pending", "confirmed", "cancelled"]

/-- `app/api/bookings.py::update_booking_status` (the `PATCH
/api/bookings/{id}/status` handler), translated clause by clause:
404 when the booking id is unknown; 400 when the requested status is not
one of the three enumerated values; on a transition into `confirmed` (only
when not already confirmed) the Zoom call is mandatory — its failure raises
a 500 with the session never committed — then calendar creation, AI-brief
generation (only when `website_url` is truthy), profile upsert and the
confirmation notification run best-effort; on a transition into `cancelled`
(only when not already cancelled), when a calendar event is linked the
delete call runs and `calendar_event_id` is cleared on the next line —
`delete_calendar_event` never raises (it catches internally and returns a
boolean), so the clear always runs and the handler's surrounding `except`
is dead code — then the cancellation notification; finally the requested
status is written and committed unconditionally. -/
def update_booking_status (env : Env) (booking_id : Nat) (newStatus : String)
    (db : List Booking) : Except HTTPError Booking × List Booking × List Effect :=
  match findBooking booking_id db with
  | none => (Except.error ⟨404, "Booking not found."⟩, db, [])
  | some booking =>
    if ¬ newStatus ∈ validStatuses then
      (Except.error ⟨400, "Invalid status value."⟩, db, [])
    else if newStatus = "confirmed" ∧ booking.status ≠ "confirmed" then
      match env.create_meeting with
      | Except.error e =>
        (Except.error ⟨500, "Could not create Zoom meeting: " ++ e⟩, db, [Effect.zoomCreate])
      | Except.ok zoom =>
        let b1 := { booking with meeting_url := some zoom.join_url }
        let b2 :=
          match env.create_calendar_event with
          | Except.ok (some event_id) =>
            if event_id != "" then { b1 with calendar_event_id := some event_id } else b1
          | _ => b1
        let briefEff := if optTruthy b2.website_url then [Effect.briefGenerate] else []
        let b3 :=
          match env.upsert_profile with
          | Except.ok profile_id => { b2 with employer_profile_id := some profile_id }
          | Except.error _ => b2
        let b4 := { b3 with status := newStatus }
        (Except.ok b4, commitBooking booking_id b4 db,
          [Effect.zoomCreate, Effect.calendarCreate] ++ briefEff ++
            [Effect.profileUpsert, Effect.notifyConfirmed])
    else if newStatus = "cancelled" ∧ booking.status ≠ "cancelled" then
      let del :=
        if optTruthy booking.calendar_event_id then
          ({ booking with calendar_event_id := none }, [Effect.calendarDelete])
        else (booking, ([] : List Effect))
      let b1 := { del.1 with status := newStatus }
      (Except.ok b1, commitBooking booking_id b1 db, del.2 ++ [Effect.notifyCancelled])
    else
      let b1 := { booking with status := newStatus }
      (Except.ok b1, commitBooking booking_id b1 db, [])

/-! ### Helper lemmas about the table model -/

theorem findBooking_mem {booking_id : Nat} {db : List Booking} {bk : Booking}
    (h : findBooking booking_id db = some bk) : bk ∈ db := by
  induction db with
  | nil => simp [findBooking] at h
  | cons hd tl ih =>
    simp only [findBooking] at h
    by_cases hid : hd.id = booking_id
    · rw [if_pos hid] at h
      cases h
      exact List.mem_cons_self _ _
    · rw [if_neg hid] at h
      exact List.mem_cons_of_mem hd (ih h)

theorem findBooking_id {booking_id : Nat} {db : List Booking} {bk : Booking}
    (h : findBooking booking_id db = some bk) : bk.id = booking_id := by
  induction db with
  | nil => simp [findBooking] at h
  | cons hd tl ih =>
    simp only [findBooking] at h
    by_cases hid : hd.id = booking_id
    · rw [if_pos hid] at h
      cases h
      exact hid
    · rw [if_neg hid] at h
      exact ih h

theorem commitBooking_of_absent {booking_id : Nat} {b : Booking} {db : List Booking}
    (h : ∀ x ∈ db, x.id ≠ booking_id) : commitBooking booking_id b db = db := by
  induction db with
  | nil => rfl
  | cons hd tl ih =>
    simp only [commitBooking, List.map_cons]
    rw [if_neg (h hd (List.mem_cons_self hd tl))]
    have := ih fun x hx => h x (List.mem_cons_of_mem hd hx)
    simp only [commitBooking] at this
    rw [this]

/-- Writing back the very row that `findBooking` found leaves the table
unchanged, provided ids are unique (the `bookings.id` primary key). -/
theorem commitBooking_found {booking_id : Nat} {db : List Booking} {bk : Booking}
    (hnodup : (db.map Booking.id).Nodup)
    (hfind : findBooking booking_id db = some bk) :
    commitBooking booking_id bk db = db := by
  induction db with
  | nil => rfl
  | cons hd tl ih =>
    simp only [findBooking] at hfind
    simp only [List.map_cons, List.nodup_cons] at hnodup
    by_cases hid : hd.id = booking_id
    · rw [if_pos hid] at hfind
      cases hfind
      simp only [commitBooking, List.map_cons, if_pos hid]
      have habs : ∀ x ∈ tl, x.id ≠ booking_id := by
        intro x hx hxid
        have hmem : x.id ∈ List.map Booking.id tl := List.mem_map_of_mem Booking.id hx
        rw [hxid, ← hid] at hmem
        exact hnodup.1 hmem
      rw [show (List.map (fun x => if x.id = booking_id then bk else x) tl)
            = commitBooking booking_id bk tl from rfl,
          commitBooking_of_absent habs]
    · rw [if_neg hid] at hfind
      simp only [commitBooking, List.map_cons, if_neg hid]
      have := ih hnodup.2 hfind
      simp only [commitBooking] at this
      rw [this]

/-! ### C1 -/

/-- C1: for a `pending` booking, if `update_booking_status(id, "confirmed")`
is invoked and the Zoom `create_meeting` call raises, the handler surfaces a
500-class `HTTPException` and the table is unchanged — the booking keeps
status `pending` and its `meeting_url` stays unset; the only collaborator
contacted was Zoom. -/
theorem confirm_zoom_failure_aborts_unmodified
    (env : Env) (db : List Booking) (bid : Nat) (bk : Booking) (e : String)
    (hfind : findBooking bid db = some bk)
    (hpending : bk.status = "pending")
    (hzoom : env.create_meeting = Except.error e) :
    update_booking_status env bid "confirmed" db =
      (Except.error ⟨500, "Could not create Zoom meeting: " ++ e⟩, db, [Effect.zoomCreate]) := by
  simp [update_booking_status, hfind, hzoom, hpending, validStatuses]

/-- Witness for C1 at a concrete booking and environment. -/
theorem confirm_zoom_failure_aborts_unmodified_witness :
    update_booking_status
      ⟨Except.error "zoom down", Except.ok none, Except.ok (), Except.error (), true⟩
      1 "confirmed"
      [⟨1, 7, "Ann", "ann@acme.com", some "Acme", some "https://acme.com", "2026-03-01",
        "10:00 AM", none, none, "pending", none, none, none⟩] =
      (Except.error ⟨500, "Could not create Zoom meeting: " ++ "zoom down"⟩,
       [⟨1, 7, "Ann", "ann@acme.com", some "Acme", some "https://acme.com", "2026-03-01",
        "10:00 AM", none, none, "pending", none, none, none⟩], [Effect.zoomCreate]) :=
  confirm_zoom_failure_aborts_unmodified _ _ 1 _ "zoom down" rfl rfl rfl

/-! ### C2 -/

/-- C2: cancelling a `confirmed` booking with a linked calendar event
clears `calendar_event_id` to `none` in the committed record, regardless of
whether the delete call to the calendar collaborator succeeds or fails:
`delete_calendar_event` catches every exception internally and reports
failure only through its boolean return (which the handler ignores), so
the clear on the following line always runs.  The environment — and with
it the delete outcome flag — is universally quantified, and the delete
call and the cancellation notification are the only effects fired. -/
theorem cancel_confirmed_clears_event_id
    (env : Env) (db : List Booking) (bid : Nat) (bk : Booking) (eid : String)
    (hfind : findBooking bid db = some bk)
    (hconf : bk.status = "confirmed")
    (hev : bk.calendar_event_id = some eid)
    (heid : eid ≠ "") :
    update_booking_status env bid "cancelled" db =
      (Except.ok { bk with calendar_event_id := none, status := "cancelled" },
       commitBooking bid { bk with calendar_event_id := none, status := "cancelled" } db,
       [Effect.calendarDelete, Effect.notifyCancelled]) ∧
    ({ bk with calendar_event_id := none, status := "cancelled" } : Booking).calendar_event_id
      = none := by
  refine ⟨?_, rfl⟩
  simp [update_booking_status, hfind, hconf, hev, optTruthy, heid, validStatuses]

/-- Witness for C2 at a concrete booking, with the calendar collaborator
reporting failure (`delete_calendar_event` returns `False`): the event id
is cleared all the same. -/
theorem cancel_confirmed_clears_event_id_witness :
    update_booking_status
      ⟨Except.ok ⟨"https://zoom/j", "77"⟩, Except.ok none, Except.ok (), Except.error (),
        false⟩
      1 "cancelled"
      [⟨1, 7, "Ann", "ann@acme.com", some "Acme", some "https://acme.com", "2026-03-01",
        "10:00 AM", none, none, "confirmed", some "https://zoom/j", some "evt_1", none⟩] =
      (Except.ok ⟨1, 7, "Ann", "ann@acme.com", some "Acme", some "https://acme.com",
        "2026-03-01", "10:00 AM", none, none, "cancelled", some "https://zoom/j",
        none, none⟩,
       [⟨1, 7, "Ann", "ann@acme.com", some "Acme", some "https://acme.com", "2026-03-01",
        "10:00 AM", none, none, "cancelled", some "https://zoom/j", none, none⟩],
       [Effect.calendarDelete, Effect.notifyCancelled]) :=
  (cancel_confirmed_clears_event_id
    ⟨Except.ok ⟨"https://zoom/j", "77"⟩, Except.ok none, Except.ok (), Except.error (),
      false⟩
    [⟨1, 7, "Ann", "ann@acme.com", some "Acme", some "https://acme.com", "2026-03-01",
      "10:00 AM", none, none, "confirmed", some "https://zoom/j", some "evt_1", none⟩]
    1
    ⟨1, 7, "Ann", "ann@acme.com", some "Acme", some "https://acme.com", "2026-03-01",
      "10:00 AM", none, none, "confirmed", some "https://zoom/j", some "evt_1", none⟩
    "evt_1" rfl rfl rfl (by decide)).1

/-! ### C3 -/

/-- C3: confirming a `pending` booking whose Zoom call succeeds still
succeeds even when every best-effort collaborator (calendar creation,
AI-brief generation, profile upsert — the notification outcome is swallowed
construction-wise) raises: the result is `ok`, the booking's status becomes
`confirmed`, its `meeting_url` is the Zoom join URL, and the committed
table holds exactly that record in the booking's row. -/
theorem confirm_best_effort_failures_still_confirms
    (env : Env) (db : List Booking) (bid : Nat) (bk : Booking) (z : ZoomMeeting)
    (ce be : String)
    (hfind : findBooking bid db = some bk)
    (hpending : bk.status = "pending")
    (hsite : optTruthy bk.website_url = true)
    (hzoom : env.create_meeting = Except.ok z)
    (hcal : env.create_calendar_event = Except.error ce)
    (_hbrief : env.generate_brief = Except.error be)
    (hupsert : env.upsert_profile = Except.error ()) :
    update_booking_status env bid "confirmed" db =
      (Except.ok { bk with meeting_url := some z.join_url, status := "confirmed" },
       commitBooking bid { bk with meeting_url := some z.join_url, status := "confirmed" } db,
       [Effect.zoomCreate, Effect.calendarCreate, Effect.briefGenerate,
        Effect.profileUpsert, Effect.notifyConfirmed]) ∧
    ({ bk with meeting_url := some z.join_url, status := "confirmed" } : Booking).status
       = "confirmed" ∧
    ({ bk with meeting_url := some z.join_url, status := "confirmed" } : Booking).meeting_url
       = some z.join_url := by
  refine ⟨?_, rfl, rfl⟩
  simp [update_booking_status, hfind, hpending, hzoom, hcal, hupsert, hsite, validStatuses]

/-- Witness for C3 at a concrete booking and environment in which the
calendar, brief and upsert collaborators all raise. -/
theorem confirm_best_effort_failures_still_confirms_witness :
    update_booking_status
      ⟨Except.ok ⟨"https://zoom/j", "77"⟩, Except.error "gcal down", Except.error "llm down",
        Except.error (), true⟩
      1 "confirmed"
      [⟨1, 7, "Ann", "ann@acme.com", some "Acme", some "https://acme.com", "2026-03-01",
        "10:00 AM", none, none, "pending", none, none, none⟩] =
      (Except.ok ⟨1, 7, "Ann", "ann@acme.com", some "Acme", some "https://acme.com",
        "2026-03-01", "10:00 AM", none, none, "confirmed", some "https://zoom/j", none, none⟩,
       [⟨1, 7, "Ann", "ann@acme.com", some "Acme", some "https://acme.com", "2026-03-01",
        "10:00 AM", none, none, "confirmed", some "https://zoom/j", none, none⟩],
       [Effect.zoomCreate, Effect.calendarCreate, Effect.briefGenerate,
        Effect.profileUpsert, Effect.notifyConfirmed]) :=
  (confirm_best_effort_failures_still_confirms
    ⟨Except.ok ⟨"https://zoom/j", "77"⟩, Except.error "gcal down", Except.error "llm down",
      Except.error (), true⟩
    [⟨1, 7, "Ann", "ann@acme.com", some "Acme", some "https://acme.com", "2026-03-01",
      "10:00 AM", none, none, "pending", none, none, none⟩]
    1
    ⟨1, 7, "Ann", "ann@acme.com", some "Acme", some "https://acme.com", "2026-03-01",
      "10:00 AM", none, none, "pending", none, none, none⟩
    ⟨"https://zoom/j", "77"⟩ "gcal down" "llm down" rfl rfl rfl rfl rfl rfl rfl).1

/-! ### C4 -/

/-- C4: re-confirming an already-`confirmed` booking fires no side effect —
the effect trace is empty, so no Zoom, calendar, brief, upsert or
notification call is made — and both the returned record and the committed
table are unchanged (assuming the primary-key uniqueness of booking ids). -/
theorem reconfirm_is_noop_without_side_effects
    (env : Env) (db : List Booking) (bid : Nat) (bk : Booking)
    (hnodup : (db.map Booking.id).Nodup)
    (hfind : findBooking bid db = some bk)
    (hconf : bk.status = "confirmed") :
    update_booking_status env bid "confirmed" db = (Except.ok bk, db, []) := by
  have hbk : ({ bk with status := "confirmed" } : Booking) = bk := by
    rw [← hconf]
  simp only [update_booking_status, hfind]
  rw [if_neg (by simp [validStatuses]), if_neg (by simp [hconf]), if_neg (by simp)]
  simp only [hbk, commitBooking_found hnodup hfind]

/-- Witness for C4 at a concrete already-confirmed booking: the update is a
no-op with an empty effect trace. -/
theorem reconfirm_is_noop_without_side_effects_witness :
    update_booking_status
      ⟨Except.ok ⟨"https://zoom/j2", "78"⟩, Except.ok (some "evt_2"), Except.ok (),
        Except.ok 5, true⟩
      1 "confirmed"
      [⟨1, 7, "Ann", "ann@acme.com", some "Acme", some "https://acme.com", "2026-03-01",
        "10:00 AM", none, none, "confirmed", some "https://zoom/j", some "evt_1", none⟩] =
      (Except.ok ⟨1, 7, "Ann", "ann@acme.com", some "Acme", some "https://acme.com",
        "2026-03-01", "10:00 AM", none, none, "confirmed", some "https://zoom/j",
        some "evt_1", none⟩,
       [⟨1, 7, "Ann", "ann@acme.com", some "Acme", some "https://acme.com", "2026-03-01",
        "10:00 AM", none, none, "confirmed", some "https://zoom/j", some "evt_1", none⟩],
       []) :=
  reconfirm_is_noop_without_side_effects _ _ 1 _ (by simp) rfl rfl

/-! ### Availability lookup (`get_availability`) and C7 -/

/-- `app/api/bookings.py::get_availability`: the slots of bookings on the
queried date whose status is `pending` or `confirmed` (the handler returns
them under the `"taken_slots"` key).  The date arrives already parsed by
`date.fromisoformat`; a malformed date string is rejected with a 400 before
this query runs. -/
def get_availability (query_date : String) (db : List Booking) : List String :=
  (db.filter fun b =>
      b.date == query_date && (b.status == "pending" || b.status == "confirmed")).map
    fun b => b.time_slot

/-- C7: for every date and table, `get_availability` returns exactly the
time-slot strings of bookings on that date in status `pending` or
`confirmed`; in particular a slot whose only bookings on the date are
`cancelled` never appears. -/
theorem availability_exactly_pending_confirmed_slots
    (query_date : String) (db : List Booking) (slot : String) :
    slot ∈ get_availability query_date db ↔
      ∃ b ∈ db, b.date = query_date ∧
        (b.status = "pending" ∨ b.status = "confirmed") ∧ b.time_slot = slot := by
  simp only [get_availability, List.mem_map, List.mem_filter, Bool.and_eq_true,
    Bool.or_eq_true, beq_iff_eq]
  constructor
  · rintro ⟨b, ⟨hb, hdate, hst⟩, hslot⟩
    exact ⟨b, hb, hdate, hst, hslot⟩
  · rintro ⟨b, hb, hdate, hst, hslot⟩
    exact ⟨b, ⟨hb, hdate, hst⟩, hslot⟩

/-! ### Booking creation, deletion, and the status invariant (C8) -/

/-- The payload of `POST /api/bookings` (`schemas/booking.py::BookingCreate`). -/
structure BookingCreate where
  date : String
  time_slot : String
  company_name : Option String
  website_url : Option String
  phone : Option String
  notes : Option String
deriving DecidableEq, Repr

/-- `app/api/bookings.py::create_booking`: a new row tied to the
authenticated employer, with `status="pending"` and the meeting/calendar/
profile links unset.  The id is the primary key the insert assigns; the
best-effort `notify_booking_received` call is swallowed and touches no
state. -/
def create_booking (newId : Nat) (user_id : Nat) (user_full_name user_email : String)
    (payload : BookingCreate) (db : List Booking) : Booking × List Booking :=
  let booking : Booking :=
    { id := newId
      employer_id := user_id
      employer_name := user_full_name
      employer_email := user_email
      company_name := payload.company_name
      website_url := payload.website_url
      date := payload.date
      time_slot := payload.time_slot
      phone := payload.phone
      notes := payload.notes
      status := "pending"
      meeting_url := none
      calendar_event_id := none
      employer_profile_id := none }
  (booking, db ++ [booking])

/-- `app/api/bookings.py::delete_booking`: 404 when the id is unknown,
otherwise the row is removed. -/
def delete_booking (booking_id : Nat) (db : List Booking) :
    Except HTTPError Unit × List Booking :=
  match findBooking booking_id db with
  | none => (Except.error ⟨404, "Booking not found."⟩, db)
  | some _ => (Except.ok (), db.filter fun x => x.id != booking_id)

/-- The operations of the bookings API that touch the `bookings` table.
These are the only handlers in `app/api/bookings.py` that write it; in
particular no other operation writes the `status` column. -/
inductive BookingAction where
  | create (newId user_id : Nat) (user_full_name user_email : String)
      (payload : BookingCreate)
  | setStatus (env : Env) (booking_id : Nat) (newStatus : String)
  | remove (booking_id : Nat)

/-- One request against the bookings API, mapped to its effect on the table. -/
def bookingStep (db : List Booking) : BookingAction → List Booking
  | BookingAction.create newId uid nm em payload =>
      (create_booking newId uid nm em payload db).2
  | BookingAction.setStatus env bid s => (update_booking_status env bid s db).2.1
  | BookingAction.remove bid => (delete_booking bid db).2

/-- Tables reachable from the empty table through the bookings API. -/
inductive ReachableBookings : List Booking → Prop where
  | init : ReachableBookings []
  | next (db : List Booking) (a : BookingAction) :
      ReachableBookings db → ReachableBookings (bookingStep db a)

theorem mem_commitBooking {b nb : Booking} {bid : Nat} {db : List Booking}
    (h : b ∈ commitBooking bid nb db) : b = nb ∨ b ∈ db := by
  simp only [commitBooking, List.mem_map] at h
  obtain ⟨x, hx, hb⟩ := h
  by_cases hid : x.id = bid
  · rw [if_pos hid] at hb; exact Or.inl hb.symm
  · rw [if_neg hid] at hb; exact Or.inr (hb ▸ hx)

theorem update_preserves_valid_status {env : Env} {bid : Nat} {s : String}
    {db : List Booking}
    (hdb : ∀ b ∈ db, b.status ∈ validStatuses) :
    ∀ b ∈ (update_booking_status env bid s db).2.1, b.status ∈ validStatuses := by
  intro b hb
  cases hfind : findBooking bid db with
  | none =>
    simp only [update_booking_status, hfind] at hb
    exact hdb b hb
  | some bk =>
    simp only [update_booking_status, hfind] at hb
    by_cases hvalid : s ∈ validStatuses
    · rw [if_neg (not_not_intro hvalid)] at hb
      by_cases hc : s = "confirmed" ∧ bk.status ≠ "confirmed"
      · rw [if_pos hc] at hb
        cases hz : env.create_meeting with
        | error e =>
          simp only [hz] at hb
          exact hdb b hb
        | ok z =>
          simp only [hz] at hb
          rcases mem_commitBooking hb with hbnew | hbold
          · rw [hbnew]; exact hvalid
          · exact hdb b hbold
      · rw [if_neg hc] at hb
        by_cases hx : s = "cancelled" ∧ bk.status ≠ "cancelled"
        · rw [if_pos hx] at hb
          simp only at hb
          rcases mem_commitBooking hb with hbnew | hbold
          · rw [hbnew]; exact hvalid
          · exact hdb b hbold
        · rw [if_neg hx] at hb
          simp only at hb
          rcases mem_commitBooking hb with hbnew | hbold
          · rw [hbnew]; exact hvalid
          · exact hdb b hbold
    · rw [if_pos hvalid] at hb
      exact hdb b hb

theorem bookingStep_preserves_valid_status {db : List Booking} {a : BookingAction}
    (hdb : ∀ b ∈ db, b.status ∈ validStatuses) :
    ∀ b ∈ bookingStep db a, b.status ∈ validStatuses := by
  intro b hb
  cases a with
  | create newId uid nm em payload =>
    simp only [bookingStep, create_booking, List.mem_append, List.mem_singleton] at hb
    rcases hb with hbold | hbnew
    · exact hdb b hbold
    · rw [hbnew]; simp [validStatuses]
  | setStatus env bid s => exact update_preserves_valid_status hdb b hb
  | remove bid =>
    simp only [bookingStep, delete_booking] at hb
    cases hfind : findBooking bid db with
    | none => rw [hfind] at hb; exact hdb b hb
    | some bk =>
      rw [hfind] at hb
      exact hdb b (List.mem_of_mem_filter hb)

/-- C8: every booking reachable through the bookings API has status in
`{pending, confirmed, cancelled}` — creation initializes `pending`, and a
`set_status` request carrying any other value is rejected with a 400
`HTTPException` leaving the table untouched and firing no side effect. -/
theorem booking_status_enum_invariant :
    (∀ db, ReachableBookings db → ∀ b ∈ db,
      b.status = "pending" ∨ b.status = "confirmed" ∨ b.status = "cancelled") ∧
    (∀ newId uid nm em payload db,
      (create_booking newId uid nm em payload db).1.status = "pending") ∧
    (∀ (env : Env) (bid : Nat) (s : String) (db : List Booking) (bk : Booking),
      findBooking bid db = some bk → ¬ s ∈ validStatuses →
      update_booking_status env bid s db =
        (Except.error ⟨400, "Invalid status value."⟩, db, [])) := by
  refine ⟨?_, fun _ _ _ _ _ _ => rfl, ?_⟩
  · intro db hdb
    have hinv : ∀ b ∈ db, b.status ∈ validStatuses := by
      induction hdb with
      | init => intro b hb; simp at hb
      | next db a _ ih => exact bookingStep_preserves_valid_status ih
    intro b hb
    simpa [validStatuses] using hinv b hb
  · intro env bid s db bk hfind hinvalid
    simp only [update_booking_status, hfind]
    rw [if_pos hinvalid]

/-- Witness for C8: the table produced by one concrete `create` request is
reachable and its single row has an enumerated status; a concrete
`set_status` request with value `"done"` is rejected with a 400 and no
change. -/
theorem booking_status_enum_invariant_witness :
    (⟨1, 7, "Ann", "ann@acme.com", some "Acme", some "https://acme.com", "2026-03-01",
        "10:00 AM", none, none, "pending", none, none, none⟩ : Booking).status = "pending" ∨
      (⟨1, 7, "Ann", "ann@acme.com", some "Acme", some "https://acme.com", "2026-03-01",
        "10:00 AM", none, none, "pending", none, none, none⟩ : Booking).status = "confirmed" ∨
      (⟨1, 7, "Ann", "ann@acme.com", some "Acme", some "https://acme.com", "2026-03-01",
        "10:00 AM", none, none, "pending", none, none, none⟩ : Booking).status = "cancelled" :=
  booking_status_enum_invariant.1
    [⟨1, 7, "Ann", "ann@acme.com", some "Acme", some "https://acme.com", "2026-03-01",
      "10:00 AM", none, none, "pending", none, none, none⟩]
    (ReachableBookings.next []
      (BookingAction.create 1 7 "Ann" "ann@acme.com"
        ⟨"2026-03-01", "10:00 AM", some "Acme", some "https://acme.com", none, none⟩)
      ReachableBookings.init)
    _ (List.mem_singleton.mpr rfl)

/-! ### Users and the auth service (`app/models/user.py`,
`app/services/auth.py`) -/

/-- A `users` row.  `user_type` carries the enum value as a string;
`is_active` defaults to `True` and `is_superuser` to `False` on insert.
The DB-managed timestamps are not touched by any modelled operation and
are omitted. -/
structure User where
  id : Nat
  email : String
  full_name : Option String
  hashed_password : Option String
  user_type : String
  oauth_provider : Option String
  oauth_provider_id : Option String
  avatar_url : Option String
  is_active : Bool
  is_superuser : Bool
deriving DecidableEq, Repr

/-- `schemas/user.py::UserCreate` after validation: `user_type` has already
been restricted to the public subset by `PublicUserType`. -/
structure UserCreate where
  email : String
  password : String
  full_name : Option String
  user_type : String
deriving DecidableEq, Repr

/-- `schemas/user.py::UserLogin`. -/
structure UserLogin where
  email : String
  password : String
deriving DecidableEq, Repr

/-- `db.query(User).filter(User.email == email).first()`. -/
def findUserByEmail (email : String) : List User → Option User
  | [] => none
  | u :: rest => if u.email = email then some u else findUserByEmail email rest

/-- `AuthService.create_user`: reject with a 400 `HTTPException`
("Email already registered") when the email is already present, otherwise
hash the password and insert the new row.  `hash` abstracts
`get_password_hash` and `newId` is the primary key the insert assigns. -/
def create_user (hash : String → String) (newId : Nat) (db : List User)
    (user : UserCreate) : Except HTTPError User × List User :=
  match findUserByEmail user.email db with
  | some _ => (Except.error ⟨400, "Email already registered"⟩, db)
  | none =>
    let db_user : User :=
      { id := newId
        email := user.email
        full_name := user.full_name
        hashed_password := some (hash user.password)
        user_type := user.user_type
        oauth_provider := none
        oauth_provider_id := none
        avatar_url := none
        is_active := true
        is_superuser := false }
    (Except.ok db_user, db ++ [db_user])

/-- The user summary embedded in a successful login response. -/
structure LoginUserSummary where
  id : Nat
  email : String
  full_name : Option String
  user_type : String
  is_superuser : Bool
deriving DecidableEq, Repr

/-- A successful `AuthService.authenticate_user` response:
`{"access_token": ..., "token_type": "bearer", "user": {...}}`. -/
structure LoginResponse where
  access_token : String
  token_type : String
  user : LoginUserSummary
deriving DecidableEq, Repr

/-- `AuthService.authenticate_user`: 401 when the email is unknown or the
password does not verify; otherwise mint a token for the user's email and
return it with the user summary.  `verify` abstracts `verify_password`
(second argument the stored hash column, possibly `NULL` for OAuth users)
and `mk_token` abstracts `create_access_token` on the `sub` claim.  Note
the function never reads `is_active`. -/
def authenticate_user (verify : String → Option String → Bool)
    (mk_token : String → String) (db : List User) (login : UserLogin) :
    Except HTTPError LoginResponse :=
  match findUserByEmail login.email db with
  | none => Except.error ⟨401, "Incorrect email or password"⟩
  | some db_user =>
    if ¬ verify login.password db_user.hashed_password then
      Except.error ⟨401, "Incorrect email or password"⟩
    else
      Except.ok
        { access_token := mk_token db_user.email
          token_type := "bearer"
          user :=
            { id := db_user.id
              email := db_user.email
              full_name := db_user.full_name
              user_type := db_user.user_type
              is_superuser := db_user.is_superuser } }

theorem findUserByEmail_append_of_none {email : String} {db extra : List User}
    (h : findUserByEmail email db = none) :
    findUserByEmail email (db ++ extra) = findUserByEmail email extra := by
  induction db with
  | nil => rfl
  | cons hd tl ih =>
    simp only [findUserByEmail] at h
    by_cases hd_eq : hd.email = email
    · rw [if_pos hd_eq] at h; exact absurd h (by simp)
    · rw [if_neg hd_eq] at h
      simp only [List.cons_append, findUserByEmail, if_neg hd_eq]
      exact ih h

/-! ### C5 -/

/-- C5 counterexample: registering a second user with an email that is
already stored fails with status code **400** (detail "Email already
registered"), not the 409 Conflict the claim states; the table is left
unchanged. -/
theorem register_duplicate_email_gives_400_cex :
    create_user (fun s => "h:" ++ s) 2
      [⟨1, "ann@acme.com", some "Ann", some "h:pw12345678", "employer", none, none, none,
        true, false⟩]
      ⟨"ann@acme.com", "otherpassword", some "Imposter", "candidate"⟩ =
      (Except.error ⟨400, "Email already registered"⟩,
       [⟨1, "ann@acme.com", some "Ann", some "h:pw12345678", "employer", none, none, none,
        true, false⟩]) ∧
    (400 : Nat) ≠ 409 := by
  constructor
  · rfl
  · decide

/-- C5 (amended): registering the same email twice makes the second call
fail with a 400 BadRequest `HTTPException` ("Email already registered"),
leaving the table exactly as the first call left it — the first user's row
(password hash, role and all) is unaffected and no second row is created. -/
theorem register_duplicate_email_bad_request
    (hash : String → String) (id1 id2 : Nat) (db : List User) (u u2 : UserCreate)
    (hfresh : findUserByEmail u.email db = none)
    (hsame : u2.email = u.email) :
    ∃ newU : User,
      create_user hash id1 db u = (Except.ok newU, db ++ [newU]) ∧
      newU.hashed_password = some (hash u.password) ∧
      newU.user_type = u.user_type ∧
      create_user hash id2 (db ++ [newU]) u2 =
        (Except.error ⟨400, "Email already registered"⟩, db ++ [newU]) := by
  have hfind2 : findUserByEmail u2.email db = none := by rw [hsame]; exact hfresh
  refine ⟨{ id := id1, email := u.email, full_name := u.full_name,
            hashed_password := some (hash u.password), user_type := u.user_type,
            oauth_provider := none, oauth_provider_id := none, avatar_url := none,
            is_active := true, is_superuser := false }, ?_, rfl, rfl, ?_⟩
  · simp only [create_user, hfresh]
  · have hfind3 : findUserByEmail u2.email
        (db ++ [{ id := id1, email := u.email, full_name := u.full_name,
                  hashed_password := some (hash u.password), user_type := u.user_type,
                  oauth_provider := none, oauth_provider_id := none, avatar_url := none,
                  is_active := true, is_superuser := false }]) =
        some { id := id1, email := u.email, full_name := u.full_name,
               hashed_password := some (hash u.password), user_type := u.user_type,
               oauth_provider := none, oauth_provider_id := none, avatar_url := none,
               is_active := true, is_superuser := false } := by
      rw [findUserByEmail_append_of_none hfind2, findUserByEmail]
      exact if_pos hsame.symm
    simp only [create_user, hfind3]

/-- Witness for the amended C5 at a concrete pair of register calls. -/
theorem register_duplicate_email_bad_request_witness :
    ∃ newU : User,
      create_user (fun s => "h:" ++ s) 1 [] ⟨"ann@acme.com", "pw12345678", some "Ann",
          "employer"⟩ =
        (Except.ok newU, [] ++ [newU]) ∧
      newU.hashed_password = some ((fun s => "h:" ++ s) "pw12345678") ∧
      newU.user_type = "employer" ∧
      create_user (fun s => "h:" ++ s) 2 ([] ++ [newU])
          ⟨"ann@acme.com", "otherpassword", some "Imposter", "candidate"⟩ =
        (Except.error ⟨400, "Email already registered"⟩, [] ++ [newU]) :=
  register_duplicate_email_bad_request (fun s => "h:" ++ s) 1 2 []
    ⟨"ann@acme.com", "pw12345678", some "Ann", "employer"⟩
    ⟨"ann@acme.com", "otherpassword", some "Imposter", "candidate"⟩ rfl rfl

/-! ### C6 -/

/-- C6 counterexample: a user whose `is_active` flag is `false` logs in
successfully with the correct password — `authenticate_user` mints a token
instead of failing with a BadRequest, because it never reads `is_active`. -/
theorem login_inactive_user_succeeds_cex :
    authenticate_user (fun _ _ => true) (fun e => "token-" ++ e)
      [⟨1, "ann@acme.com", some "Ann", some "h:pw12345678", "employer", none, none, none,
        false, false⟩]
      ⟨"ann@acme.com", "pw12345678"⟩ =
      Except.ok ⟨"token-" ++ "ann@acme.com", "bearer",
        ⟨1, "ann@acme.com", some "Ann", "employer", false⟩⟩ ∧
    (⟨1, "ann@acme.com", some "Ann", some "h:pw12345678", "employer", none, none, none,
        false, false⟩ : User).is_active = false := by
  constructor
  · rfl
  · rfl

/-- C6 (amended): `authenticate_user` does not consult the `is_active`
flag: for any stored user — in particular one with `is_active = false` —
presenting a password that verifies yields a successful login response
with a freshly minted token, not a BadRequest. -/
theorem authenticate_user_ignores_active_flag
    (verify : String → Option String → Bool) (mk_token : String → String)
    (db : List User) (login : UserLogin) (db_user : User)
    (hfind : findUserByEmail login.email db = some db_user)
    (_hinactive : db_user.is_active = false)
    (hverify : verify login.password db_user.hashed_password = true) :
    authenticate_user verify mk_token db login =
      Except.ok
        { access_token := mk_token db_user.email
          token_type := "bearer"
          user :=
            { id := db_user.id
              email := db_user.email
              full_name := db_user.full_name
              user_type := db_user.user_type
              is_superuser := db_user.is_superuser } } := by
  simp [authenticate_user, hfind, hverify]

/-- Witness for the amended C6 at a concrete inactive user. -/
theorem authenticate_user_ignores_active_flag_witness :
    authenticate_user (fun p h => h == some ("h:" ++ p)) (fun e => "token-" ++ e)
      [⟨1, "bob@acme.com", some "Bob", some "h:pw12345678", "candidate", none, none, none,
        false, false⟩]
      ⟨"bob@acme.com", "pw12345678"⟩ =
      Except.ok
        { access_token := (fun e => "token-" ++ e) "bob@acme.com"
          token_type := "bearer"
          user :=
            { id := 1
              email := "bob@acme.com"
              full_name := some "Bob"
              user_type := "candidate"
              is_superuser := false } } :=
  authenticate_user_ignores_active_flag (fun p h => h == some ("h:" ++ p))
    (fun e => "token-" ++ e)
    [⟨1, "bob@acme.com", some "Bob", some "h:pw12345678", "candidate", none, none, none,
      false, false⟩]
    ⟨"bob@acme.com", "pw12345678"⟩
    ⟨1, "bob@acme.com", some "Bob", some "h:pw12345678", "candidate", none, none, none,
      false, false⟩
    rfl rfl (by decide)

/-! ### JSON values and the AI brief service (`app/services/ai_brief.py`) -/

/-- A Python JSON value, as produced by `json.loads`. -/
inductive PyJson where
  | null
  | bool (b : Bool)
  | num (n : Int)
  | str (s : String)
  | arr (elems : List PyJson)
  | obj (fields : List (String × PyJson))

/-- The markdown-fence stripping inside `generate_pre_call_brief`:
when the LLM reply starts with three backticks, the code drops everything
up to and including the first newline (`raw.split("\n", 1)[-1]`), then
everything from the last fence on (`raw.rsplit("```", 1)[0]`), and strips
whitespace. -/
def stripFences (raw : String) : String :=
  if raw.startsWith "```" then
    let afterFirstLine :=
      match raw.splitOn "\n" with
      | [] => raw
      | [only] => only
      | _ :: rest => String.intercalate "\n" rest
    let parts := afterFirstLine.splitOn "```"
    let beforeLastFence :=
      if parts.length ≤ 1 then afterFirstLine
      else String.intercalate "```" parts.dropLast
    beforeLastFence.trim
  else raw

/-- Collaborator outcomes for one `generate_pre_call_brief` call:
`api_key` is `settings.ANTHROPIC_API_KEY` (`None`/empty is falsy),
`fetch_website` the outcome of `_fetch_website_text` (already truncated,
error = any exception in the HTTP fetch or HTML cleanup), `llm_call` the
outcome of the Anthropic client call (`ok` carries
`message.content[0].text`), and `json_loads` models `json.loads`
(`none` = `JSONDecodeError`). -/
structure BriefEnv where
  api_key : Option String
  fetch_website : Except String String
  llm_call : Except String String
  json_loads : String → Option PyJson

/-- `app/services/ai_brief.py::generate_pre_call_brief`, clause by clause:
empty dict when the API key is unset, when the website fetch raises, when
no readable text was extracted, or when the LLM call raises; when the LLM
replied but its (fence-stripped) text fails JSON parsing, the raw text is
returned under the `"ai_brief_raw"` key instead of an error.  The function
is total — the embedding of "never raises". -/
def generate_pre_call_brief (env : BriefEnv) : PyJson :=
  match env.api_key with
  | none => PyJson.obj []
  | some key =>
    if key = "" then PyJson.obj []
    else
      match env.fetch_website with
      | Except.error _ => PyJson.obj []
      | Except.ok website_text =>
        if website_text = "" then PyJson.obj []
        else
          match env.llm_call with
          | Except.error _ => PyJson.obj []
          | Except.ok reply =>
            let raw := stripFences reply.trim
            match env.json_loads raw with
            | some result => result
            | none => PyJson.obj [("ai_brief_raw", PyJson.str raw)]

/-! ### C9 -/

/-- C9: `generate_pre_call_brief` never propagates a failure: it is a total
function that returns the empty dict when the API key is missing or empty,
when the website fetch raises, when the extracted text is empty, or when
the LLM call raises; and when the LLM replied with text that fails JSON
parsing it returns the dict `{"ai_brief_raw": <stripped raw text>}`. -/
theorem generate_pre_call_brief_never_fails (env : BriefEnv) :
    (env.api_key = none → generate_pre_call_brief env = PyJson.obj []) ∧
    (env.api_key = some "" → generate_pre_call_brief env = PyJson.obj []) ∧
    (∀ key e, env.api_key = some key → key ≠ "" →
      env.fetch_website = Except.error e →
      generate_pre_call_brief env = PyJson.obj []) ∧
    (∀ key, env.api_key = some key → key ≠ "" →
      env.fetch_website = Except.ok "" →
      generate_pre_call_brief env = PyJson.obj []) ∧
    (∀ key text e, env.api_key = some key → key ≠ "" →
      env.fetch_website = Except.ok text → text ≠ "" →
      env.llm_call = Except.error e →
      generate_pre_call_brief env = PyJson.obj []) ∧
    (∀ key text reply, env.api_key = some key → key ≠ "" →
      env.fetch_website = Except.ok text → text ≠ "" →
      env.llm_call = Except.ok reply →
      env.json_loads (stripFences reply.trim) = none →
      generate_pre_call_brief env =
        PyJson.obj [("ai_brief_raw", PyJson.str (stripFences reply.trim))]) := by
  refine ⟨?_, ?_, ?_, ?_, ?_, ?_⟩
  · intro h; simp [generate_pre_call_brief, h]
  · intro h; simp [generate_pre_call_brief, h]
  · intro key e hk hne hf; simp [generate_pre_call_brief, hk, hne, hf]
  · intro key hk hne hf; simp [generate_pre_call_brief, hk, hne, hf]
  · intro key text e hk hne hf ht hl
    simp [generate_pre_call_brief, hk, hne, hf, ht, hl]
  · intro key text reply hk hne hf ht hl hj
    simp [generate_pre_call_brief, hk, hne, hf, ht, hl, hj]

/-- Witness for C9: a concrete environment in which the LLM replies with a
fenced non-JSON text — the result is the raw-text fallback dict. -/
theorem generate_pre_call_brief_never_fails_witness :
    generate_pre_call_brief
      ⟨some "sk-key", Except.ok "Acme builds rockets.",
       Except.ok "```json\nnot json```", fun _ => none⟩ =
      PyJson.obj [("ai_brief_raw",
        PyJson.str (stripFences (String.trim "```json\nnot json```")))] :=
  (generate_pre_call_brief_never_fails
    ⟨some "sk-key", Except.ok "Acme builds rockets.",
     Except.ok "```json\nnot json```", fun _ => none⟩).2.2.2.2.2
    "sk-key" "Acme builds rockets." "```json\nnot json```"
    rfl (by decide) rfl (by decide) rfl rfl

/-! ### Employer profiles (`app/api/employer_profiles.py`) -/

/-- An `employer_profiles` row, restricted to the columns the profile
endpoints read.  `ai_hiring_needs` and `ai_talking_points` hold serialized
JSON text (or `NULL`). -/
structure EmployerProfile where
  id : Nat
  company_name : String
  website_url : Option String
  primary_contact_email : Option String
  phone : Option String
  ai_industry : Option String
  ai_company_size : Option String
  ai_company_overview : Option String
  ai_hiring_needs : Option String
  ai_talking_points : Option String
  ai_red_flags : Option String
  ai_brief_raw : Option String
  recruiter_notes : Option String
  relationship_status : Option String

/-- `app/api/employer_profiles.py::_parse_json_list`: `[]` for a falsy
value (NULL or the empty string), `[]` when `json.loads` raises, the
parsed list when the JSON is a list, and `[]` for JSON of any other
shape. -/
def _parse_json_list (json_loads : String → Option PyJson)
    (value : Option String) : List PyJson :=
  match value with
  | none => []
  | some s =>
    if s = "" then []
    else
      match json_loads s with
      | none => []
      | some (PyJson.arr elems) => elems
      | some _ => []

/-- The response body of the profile endpoints
(`EmployerProfileResponse`): the two serialized-text columns have been
parsed into genuine lists. -/
structure EmployerProfileResponse where
  id : Nat
  company_name : String
  website_url : Option String
  primary_contact_email : Option String
  phone : Option String
  ai_industry : Option String
  ai_company_size : Option String
  ai_company_overview : Option String
  ai_hiring_needs : List PyJson
  ai_talking_points : List PyJson
  ai_red_flags : Option String
  ai_brief_raw : Option String
  recruiter_notes : Option String
  relationship_status : Option String

/-- `db.query(EmployerProfile).filter(EmployerProfile.id == profile_id).first()`. -/
def findProfile (profile_id : Nat) : List EmployerProfile → Option EmployerProfile
  | [] => none
  | p :: rest => if p.id = profile_id then some p else findProfile profile_id rest

/-- `app/api/employer_profiles.py::get_employer_profile`: 404 when the id
is unknown, otherwise the response is built field by field with the two
list columns run through `_parse_json_list`. -/
def get_employer_profile (json_loads : String → Option PyJson)
    (profile_id : Nat) (profiles : List EmployerProfile) :
    Except HTTPError EmployerProfileResponse :=
  match findProfile profile_id profiles with
  | none => Except.error ⟨404, "Employer profile not found."⟩
  | some p =>
    Except.ok
      { id := p.id
        company_name := p.company_name
        website_url := p.website_url
        primary_contact_email := p.primary_contact_email
        phone := p.phone
        ai_industry := p.ai_industry
        ai_company_size := p.ai_company_size
        ai_company_overview := p.ai_company_overview
        ai_hiring_needs := _parse_json_list json_loads p.ai_hiring_needs
        ai_talking_points := _parse_json_list json_loads p.ai_talking_points
        ai_red_flags := p.ai_red_flags
        ai_brief_raw := p.ai_brief_raw
        recruiter_notes := p.recruiter_notes
        relationship_status := p.relationship_status }

/-! ### C10 -/

/-- C10: reading a stored profile always yields list-typed
`ai_hiring_needs`/`ai_talking_points` — `_parse_json_list` is total,
mapping NULL, the empty string, text `json.loads` rejects, and JSON of
non-list shape to `[]` (and a JSON list to its elements), and
`get_employer_profile` succeeds on every stored profile with both fields
produced by that parser. -/
theorem profile_json_list_fields_total_parse
    (json_loads : String → Option PyJson) :
    (_parse_json_list json_loads none = []) ∧
    (_parse_json_list json_loads (some "") = []) ∧
    (∀ s, s ≠ "" → json_loads s = none →
      _parse_json_list json_loads (some s) = []) ∧
    (∀ s v, s ≠ "" → json_loads s = some v → (∀ elems, v ≠ PyJson.arr elems) →
      _parse_json_list json_loads (some s) = []) ∧
    (∀ s elems, s ≠ "" → json_loads s = some (PyJson.arr elems) →
      _parse_json_list json_loads (some s) = elems) ∧
    (∀ profile_id profiles p, findProfile profile_id profiles = some p →
      get_employer_profile json_loads profile_id profiles =
        Except.ok
          { id := p.id
            company_name := p.company_name
            website_url := p.website_url
            primary_contact_email := p.primary_contact_email
            phone := p.phone
            ai_industry := p.ai_industry
            ai_company_size := p.ai_company_size
            ai_company_overview := p.ai_company_overview
            ai_hiring_needs := _parse_json_list json_loads p.ai_hiring_needs
            ai_talking_points := _parse_json_list json_loads p.ai_talking_points
            ai_red_flags := p.ai_red_flags
            ai_brief_raw := p.ai_brief_raw
            recruiter_notes := p.recruiter_notes
            relationship_status := p.relationship_status }) := by
  refine ⟨rfl, rfl, ?_, ?_, ?_, ?_⟩
  · intro s hs hj; simp [_parse_json_list, hs, hj]
  · intro s v hs hj hv
    cases v with
    | arr elems => exact absurd rfl (hv elems)
    | null => simp [_parse_json_list, hs, hj]
    | bool b => simp [_parse_json_list, hs, hj]
    | num n => simp [_parse_json_list, hs, hj]
    | str t => simp [_parse_json_list, hs, hj]
    | obj fields => simp [_parse_json_list, hs, hj]
  · intro s elems hs hj; simp [_parse_json_list, hs, hj]
  · intro profile_id profiles p hp; simp [get_employer_profile, hp]

/-- Witness for C10: a stored profile whose `ai_hiring_needs` column holds
text `json.loads` rejects and whose `ai_talking_points` is NULL reads back
with both fields equal to `[]`. -/
theorem profile_json_list_fields_total_parse_witness :
    get_employer_profile (fun _ => none) 1
      [⟨1, "Acme", some "https://acme.com", some "ann@acme.com", none, none, none, none,
        some "not json", none, none, none, none, none⟩] =
      Except.ok
        { id := 1
          company_name := "Acme"
          website_url := some "https://acme.com"
          primary_contact_email := some "ann@acme.com"
          phone := none
          ai_industry := none
          ai_company_size := none
          ai_company_overview := none
          ai_hiring_needs := _parse_json_list (fun _ => none) (some "not json")
          ai_talking_points := _parse_json_list (fun _ => none) none
          ai_red_flags := none
          ai_brief_raw := none
          recruiter_notes := none
          relationship_status := none } :=
  (profile_json_list_fields_total_parse (fun _ => none)).2.2.2.2.2 1
    [⟨1, "Acme", some "https://acme.com", some "ann@acme.com", none, none, none, none,
      some "not json", none, none, none, none, none⟩]
    ⟨1, "Acme", some "https://acme.com", some "ann@acme.com", none, none, none, none,
      some "not json", none, none, none, none, none⟩
    rfl

end RyzeBackend
